import Mathlib

/-!
Shallow embedding of the formula-finder backend (src/db/tables.ts).

The repository defines four astro:db tables (FormulaGroups, Formulas,
FormulaExamples, UserFormulaState) and a `server` object of eleven actions.
Here each table is a list of row structures inside a `DB` state (with the
autoincrement counter of each table carried explicitly), dates are `Nat`
timestamps, JSON payloads (`meta`, `data`) are modelled opaquely as
key-value string maps, and each action handler is a function
`input → Ctx → now → DB → Except ActionErr ActionOutput × DB`:
a thrown `ActionError` becomes `.error` and the returned state records
exactly the writes performed before the throw (the handlers never write
before throwing, mirroring the source order of awaits).
-/

namespace FormulaFinder

/-- `difficulty` enum of the Formulas table: ["basic", "intermediate", "advanced"]. -/
inductive Difficulty
  | basic
  | intermediate
  | advanced
deriving DecidableEq, Repr

/-- `familiarity` enum of the UserFormulaState table:
["new", "learning", "comfortable", "mastered"]. -/
inductive Familiarity
  | new
  | learning
  | comfortable
  | mastered
deriving DecidableEq, Repr

/-- Opaque model of a JSON record payload (`z.record(z.any())`):
the claims never inspect its contents, only carry it around. -/
abbrev JsonMap := List (String × String)

/-- `variableSchema`: { symbol: min(1), meaning?: string, unit?: string }. -/
structure VariableSpec where
  symbol : String
  meaning : Option String := none
  unit : Option String := none
deriving DecidableEq, Repr

/-- A row of the FormulaGroups table. `none` models SQL NULL / undefined. -/
structure FormulaGroup where
  id : Nat
  ownerId : Option String
  name : String
  subject : Option String := none
  tags : Option String := none
  description : Option String := none
  slug : Option String := none
  isActive : Bool := true
  createdAt : Nat
  updatedAt : Nat
deriving DecidableEq, Repr

/-- A row of the Formulas table. -/
structure Formula where
  id : Nat
  groupId : Option Nat := none
  name : String
  expression : String
  description : Option String := none
  vars : Option (List VariableSpec) := none
  meta : Option JsonMap := none
  difficulty : Difficulty := .basic
  isActive : Bool := true
  createdAt : Nat
  updatedAt : Nat
deriving DecidableEq, Repr

/-- A row of the FormulaExamples table. -/
structure FormulaExampleRow where
  id : Nat
  formulaId : Nat
  title : Option String := none
  problem : String
  solution : String
  data : Option JsonMap := none
  createdAt : Nat
deriving DecidableEq, Repr

/-- A row of the UserFormulaState table. -/
structure UserFormulaStateRow where
  id : Nat
  userId : String
  formulaId : Nat
  isFavorite : Bool := false
  note : Option String := none
  familiarity : Familiarity := .new
  createdAt : Nat
  updatedAt : Nat
deriving DecidableEq, Repr

/-- The store: one list per table plus each table's autoincrement counter. -/
structure DB where
  formulaGroups : List FormulaGroup := []
  formulas : List Formula := []
  formulaExamples : List FormulaExampleRow := []
  userFormulaState : List UserFormulaStateRow := []
  nextGroupId : Nat := 1
  nextFormulaId : Nat := 1
  nextExampleId : Nat := 1
  nextStateId : Nat := 1
deriving DecidableEq, Repr

/-- The authenticated user produced by the external session collaborator:
the core only ever reads `user.id`. -/
structure User where
  id : String
deriving DecidableEq, Repr

/-- Action context: `context.locals.user` is either a user object or absent. -/
structure Ctx where
  user : Option User := none
deriving DecidableEq, Repr

/-- ActionError codes used by the handlers, plus the schema-validation
rejection produced by `defineAction` input parsing before the handler runs. -/
inductive ErrCode
  | unauthorized
  | notFound
  | forbidden
  | validation
deriving DecidableEq, Repr

/-- An ActionError: code plus message. -/
structure ActionErr where
  code : ErrCode
  message : String
deriving DecidableEq, Repr

/-- The UNAUTHORIZED error thrown by `requireUser`. -/
def unauthorizedErr : ActionErr :=
  ⟨.unauthorized, "You must be signed in to perform this action."⟩

/-- The NOT_FOUND error thrown by `getOwnedGroup`. -/
def groupNotFoundErr : ActionErr := ⟨.notFound, "Formula group not found."⟩

/-- The FORBIDDEN error thrown by `getOwnedGroup`. -/
def forbiddenErr : ActionErr := ⟨.forbidden, "You do not have access to this group."⟩

/-- The NOT_FOUND error thrown by `ensureFormulaIsEditable`. -/
def formulaNotFoundErr : ActionErr := ⟨.notFound, "Formula not found."⟩

/-- Rejection of an input that fails its zod schema, before the handler runs. -/
def validationErr : ActionErr := ⟨.validation, "Invalid input."⟩

/-- Success payloads of the eleven actions (`data` field contents). -/
inductive ActionData
  | group (g : Option FormulaGroup)
  | groupList (items : List FormulaGroup) (total : Nat)
  | formulaRow (f : Option Formula)
  | formulaList (items : List Formula) (total : Nat)
  | exampleRow (e : Option FormulaExampleRow)
  | exampleList (items : List FormulaExampleRow) (total : Nat)
  | stateRow (s : Option UserFormulaStateRow)
  | stateList (items : List UserFormulaStateRow) (total : Nat)
deriving DecidableEq, Repr

/-- The response envelope: `{ success, data? }`. `archiveFormula` returns
`{ success: true }` with no `data` key, hence `data` is optional here. -/
structure ActionOutput where
  success : Bool
  data : Option ActionData
deriving DecidableEq, Repr

/-- Result of running one action: the thrown error or the returned value,
together with the store state after the call. -/
abbrev ActionResult := Except ActionErr ActionOutput × DB

/-- Decidable equality of results, so that concrete runs can be checked
by `decide`. -/
instance {α β : Type} [DecidableEq α] [DecidableEq β] :
    DecidableEq (Except α β) := fun a b =>
  match a, b with
  | .error e1, .error e2 =>
    if h : e1 = e2 then .isTrue (by rw [h]) else .isFalse (by simp [h])
  | .ok o1, .ok o2 =>
    if h : o1 = o2 then .isTrue (by rw [h]) else .isFalse (by simp [h])
  | .error _, .ok _ => .isFalse (by simp)
  | .ok _, .error _ => .isFalse (by simp)

/-- `requireUser(context)`: throws UNAUTHORIZED when `locals.user` is absent. -/
def requireUser (ctx : Ctx) : Except ActionErr User :=
  match ctx.user with
  | none => .error unauthorizedErr
  | some u => .ok u

/-- `db.select().from(FormulaGroups).where(eq(FormulaGroups.id, groupId))`
destructured as `[group]`: the first row with that id, if any. -/
def findGroup (db : DB) (groupId : Nat) : Option FormulaGroup :=
  (db.formulaGroups.filter (fun g => g.id == groupId)).head?

/-- `getOwnedGroup(groupId, userId)`. The source guard is
`if (group.ownerId && group.ownerId !== userId)`: JavaScript truthiness on a
nullable text column, so both null/undefined and the empty string are falsy. -/
def getOwnedGroup (db : DB) (groupId : Nat) (userId : String) :
    Except ActionErr FormulaGroup :=
  match findGroup db groupId with
  | none => .error groupNotFoundErr
  | some group =>
    if (match group.ownerId with
        | none => false
        | some o => o != "" && o != userId) then
      .error forbiddenErr
    else
      .ok group

/-- `db.select().from(Formulas).where(eq(Formulas.id, formulaId))`
destructured as `[formula]`. -/
def findFormula (db : DB) (formulaId : Nat) : Option Formula :=
  (db.formulas.filter (fun f => f.id == formulaId)).head?

/-- `ensureFormulaIsEditable(formulaId, userId)`: NOT_FOUND when the formula
is absent; when `formula.groupId !== null && formula.groupId !== undefined`
the group check runs (its failure propagates); the formula is returned. -/
def ensureFormulaIsEditable (db : DB) (formulaId : Nat) (userId : String) :
    Except ActionErr Formula :=
  match findFormula db formulaId with
  | none => .error formulaNotFoundErr
  | some formula =>
    match formula.groupId with
    | some gid =>
      match getOwnedGroup db gid userId with
      | .error e => .error e
      | .ok _ => .ok formula
    | none => .ok formula

/-- Partial-patch helper for optional columns: a provided value replaces the
stored one, an absent field (undefined) leaves it unchanged. -/
def patchOpt {α : Type} (fieldValue old : Option α) : Option α :=
  match fieldValue with
  | some a => some a
  | none => old

/-- Input of createFormulaGroup. -/
structure CreateGroupInput where
  name : String
  subject : Option String := none
  tags : Option String := none
  description : Option String := none
  slug : Option String := none
  isActive : Option Bool := none
deriving DecidableEq, Repr

/-- Zod checks of the createFormulaGroup input schema: `name: min(1)`. -/
def CreateGroupInput.valid (i : CreateGroupInput) : Bool :=
  i.name != ""

/-- `createFormulaGroup`: sets ownerId to the caller, defaults isActive via
`input.isActive ?? true`, stamps createdAt/updatedAt with the same instant. -/
def createFormulaGroup (input : CreateGroupInput) (ctx : Ctx) (now : Nat)
    (db : DB) : ActionResult :=
  if input.valid then
    match requireUser ctx with
    | .error e => (.error e, db)
    | .ok user =>
      let group : FormulaGroup :=
        { id := db.nextGroupId
          ownerId := some user.id
          name := input.name
          subject := input.subject
          tags := input.tags
          description := input.description
          slug := input.slug
          isActive := input.isActive.getD true
          createdAt := now
          updatedAt := now }
      (.ok ⟨true, some (.group (some group))⟩,
        { db with
          formulaGroups := db.formulaGroups ++ [group]
          nextGroupId := db.nextGroupId + 1 })
  else (.error validationErr, db)

/-- Input of updateFormulaGroup (`updateGroupSchema`). -/
structure UpdateGroupInput where
  id : Nat
  name : Option String := none
  subject : Option String := none
  tags : Option String := none
  description : Option String := none
  slug : Option String := none
  isActive : Option Bool := none
deriving DecidableEq, Repr

/-- `updateGroupSchema` checks: provided name nonempty, and the `.refine`
"At least one field must be provided to update.". -/
def UpdateGroupInput.valid (i : UpdateGroupInput) : Bool :=
  (match i.name with | some n => n != "" | none => true) &&
  (i.name.isSome || i.subject.isSome || i.tags.isSome ||
    i.description.isSome || i.slug.isSome || i.isActive.isSome)

/-- The `.set({...})` object of updateFormulaGroup applied to one row:
conditional spreads for each provided field, updatedAt unconditionally. -/
def applyGroupPatch (input : UpdateGroupInput) (now : Nat)
    (g : FormulaGroup) : FormulaGroup :=
  { g with
    name := input.name.getD g.name
    subject := patchOpt input.subject g.subject
    tags := patchOpt input.tags g.tags
    description := patchOpt input.description g.description
    slug := patchOpt input.slug g.slug
    isActive := input.isActive.getD g.isActive
    updatedAt := now }

/-- `updateFormulaGroup`: requireUser, getOwnedGroup on the target id, then
`db.update(FormulaGroups).set({...}).where(eq(id)).returning()`. -/
def updateFormulaGroup (input : UpdateGroupInput) (ctx : Ctx) (now : Nat)
    (db : DB) : ActionResult :=
  if input.valid then
    match requireUser ctx with
    | .error e => (.error e, db)
    | .ok user =>
      match getOwnedGroup db input.id user.id with
      | .error e => (.error e, db)
      | .ok _ =>
        let groups := db.formulaGroups.map (fun g =>
          if g.id == input.id then applyGroupPatch input now g else g)
        (.ok ⟨true, some (.group ((groups.filter (fun g => g.id == input.id)).head?))⟩,
          { db with formulaGroups := groups })
  else (.error validationErr, db)

/-- Input of listMyFormulaGroups (after zod defaulting of includeInactive). -/
structure ListGroupsInput where
  includeInactive : Bool := false
deriving DecidableEq, Repr

/-- `listMyFormulaGroups`: groups owned by the caller, restricted to
isActive=true unless includeInactive. -/
def listMyFormulaGroups (input : Option ListGroupsInput) (ctx : Ctx)
    (db : DB) : ActionResult :=
  match requireUser ctx with
  | .error e => (.error e, db)
  | .ok user =>
    let includeInactive := (input.map (fun i => i.includeInactive)).getD false
    let groups := db.formulaGroups.filter (fun g =>
      if includeInactive then g.ownerId == some user.id
      else g.ownerId == some user.id && g.isActive)
    (.ok ⟨true, some (.groupList groups groups.length)⟩, db)

/-- Input of createFormula (after zod defaulting of difficulty). -/
structure CreateFormulaInput where
  groupId : Option Nat := none
  name : String
  expression : String
  description : Option String := none
  vars : Option (List VariableSpec) := none
  meta : Option JsonMap := none
  difficulty : Difficulty := .basic
  isActive : Option Bool := none
deriving DecidableEq, Repr

/-- `variableSchema` check: `symbol: min(1)`. -/
def variableSpecValid (v : VariableSpec) : Bool :=
  v.symbol != ""

/-- createFormula input schema checks. -/
def CreateFormulaInput.valid (i : CreateFormulaInput) : Bool :=
  i.name != "" && i.expression != "" &&
  (match i.vars with
    | some vs => vs.all variableSpecValid
    | none => true)

/-- `createFormula`: when a groupId is supplied its ownership is checked
before the insert, so a Forbidden aborts with nothing created. -/
def createFormula (input : CreateFormulaInput) (ctx : Ctx) (now : Nat)
    (db : DB) : ActionResult :=
  if input.valid then
    match requireUser ctx with
    | .error e => (.error e, db)
    | .ok user =>
      match (match input.groupId with
              | some gid =>
                match getOwnedGroup db gid user.id with
                | .error e => Except.error e
                | .ok _ => Except.ok ()
              | none => Except.ok ()) with
      | .error e => (.error e, db)
      | .ok _ =>
        let formula : Formula :=
          { id := db.nextFormulaId
            groupId := input.groupId
            name := input.name
            expression := input.expression
            description := input.description
            vars := input.vars
            meta := input.meta
            difficulty := input.difficulty
            isActive := input.isActive.getD true
            createdAt := now
            updatedAt := now }
        (.ok ⟨true, some (.formulaRow (some formula))⟩,
          { db with
            formulas := db.formulas ++ [formula]
            nextFormulaId := db.nextFormulaId + 1 })
  else (.error validationErr, db)

/-- Input of updateFormula (`updateFormulaSchema`). -/
structure UpdateFormulaInput where
  id : Nat
  groupId : Option Nat := none
  name : Option String := none
  expression : Option String := none
  description : Option String := none
  vars : Option (List VariableSpec) := none
  meta : Option JsonMap := none
  difficulty : Option Difficulty := none
  isActive : Option Bool := none
deriving DecidableEq, Repr

/-- `updateFormulaSchema` checks, including the "at least one field" refine. -/
def UpdateFormulaInput.valid (i : UpdateFormulaInput) : Bool :=
  (match i.name with | some n => n != "" | none => true) &&
  (match i.expression with | some e => e != "" | none => true) &&
  (match i.vars with
    | some vs => vs.all variableSpecValid
    | none => true) &&
  (i.groupId.isSome || i.name.isSome || i.expression.isSome ||
    i.description.isSome || i.vars.isSome || i.meta.isSome ||
    i.difficulty.isSome || i.isActive.isSome)

/-- The `.set({...})` object of updateFormula applied to one row. -/
def applyFormulaPatch (input : UpdateFormulaInput) (now : Nat)
    (f : Formula) : Formula :=
  { f with
    groupId := patchOpt input.groupId f.groupId
    name := input.name.getD f.name
    expression := input.expression.getD f.expression
    description := patchOpt input.description f.description
    vars := patchOpt input.vars f.vars
    meta := patchOpt input.meta f.meta
    difficulty := input.difficulty.getD f.difficulty
    isActive := input.isActive.getD f.isActive
    updatedAt := now }

/-- The second ownership check of updateFormula: the new target group when
`input.groupId !== undefined`, else the current group when set. -/
def destinationCheck (db : DB) (input : UpdateFormulaInput)
    (formula : Formula) (userId : String) : Except ActionErr Unit :=
  match input.groupId with
  | some gid =>
    match getOwnedGroup db gid userId with
    | .error e => .error e
    | .ok _ => .ok ()
  | none =>
    match formula.groupId with
    | some gid =>
      match getOwnedGroup db gid userId with
      | .error e => .error e
      | .ok _ => .ok ()
    | none => .ok ()

/-- `updateFormula`: requireUser, ensureFormulaIsEditable on the existing
formula, the destination (or re-checked current) group check, then the
partial update with refreshed updatedAt. -/
def updateFormula (input : UpdateFormulaInput) (ctx : Ctx) (now : Nat)
    (db : DB) : ActionResult :=
  if input.valid then
    match requireUser ctx with
    | .error e => (.error e, db)
    | .ok user =>
      match ensureFormulaIsEditable db input.id user.id with
      | .error e => (.error e, db)
      | .ok formula =>
        match destinationCheck db input formula user.id with
        | .error e => (.error e, db)
        | .ok _ =>
          let formulas := db.formulas.map (fun f =>
            if f.id == input.id then applyFormulaPatch input now f else f)
          (.ok ⟨true, some (.formulaRow ((formulas.filter (fun f => f.id == input.id)).head?))⟩,
            { db with formulas := formulas })
  else (.error validationErr, db)

/-- Input of archiveFormula. -/
structure ArchiveFormulaInput where
  id : Nat
deriving DecidableEq, Repr

/-- The `.set({ isActive: false, updatedAt: new Date() })` of archiveFormula
applied to one row. -/
def archivePatch (now : Nat) (f : Formula) : Formula :=
  { f with isActive := false, updatedAt := now }

/-- `archiveFormula`: requires editability, sets isActive=false and
updatedAt=now on the matching row, and returns `{ success: true }`
with no data field. -/
def archiveFormula (input : ArchiveFormulaInput) (ctx : Ctx) (now : Nat)
    (db : DB) : ActionResult :=
  match requireUser ctx with
  | .error e => (.error e, db)
  | .ok user =>
    match ensureFormulaIsEditable db input.id user.id with
    | .error e => (.error e, db)
    | .ok _ =>
      (.ok ⟨true, none⟩,
        { db with formulas := db.formulas.map (fun f =>
            if f.id == input.id then archivePatch now f else f) })

/-- Input of listFormulas (after zod defaulting of includeInactive). -/
structure ListFormulasInput where
  groupId : Option Nat := none
  difficulty : Option Difficulty := none
  includeInactive : Bool := false
deriving DecidableEq, Repr

/-- `listFormulas`: shared catalog view filtered by groupId, difficulty and
active state; no per-owner scoping. -/
def listFormulas (input : Option ListFormulasInput) (ctx : Ctx)
    (db : DB) : ActionResult :=
  match requireUser ctx with
  | .error e => (.error e, db)
  | .ok _ =>
    let gidFilter := input.bind (fun i => i.groupId)
    let diffFilter := input.bind (fun i => i.difficulty)
    let includeInactive := (input.map (fun i => i.includeInactive)).getD false
    let formulas := db.formulas.filter (fun f =>
      (match gidFilter with
        | some g => f.groupId == some g
        | none => true) &&
      (match diffFilter with
        | some d => f.difficulty == d
        | none => true) &&
      (includeInactive || f.isActive))
    (.ok ⟨true, some (.formulaList formulas formulas.length)⟩, db)

/-- Input of createFormulaExample. -/
structure CreateExampleInput where
  formulaId : Nat
  title : Option String := none
  problem : String
  solution : String
  data : Option JsonMap := none
deriving DecidableEq, Repr

/-- createFormulaExample input schema checks: problem/solution min(1). -/
def CreateExampleInput.valid (i : CreateExampleInput) : Bool :=
  i.problem != "" && i.solution != ""

/-- `createFormulaExample`: ensureFormulaIsEditable, then a second (redundant)
group check when the formula has a group, then the insert. -/
def createFormulaExample (input : CreateExampleInput) (ctx : Ctx) (now : Nat)
    (db : DB) : ActionResult :=
  if input.valid then
    match requireUser ctx with
    | .error e => (.error e, db)
    | .ok user =>
      match ensureFormulaIsEditable db input.formulaId user.id with
      | .error e => (.error e, db)
      | .ok formula =>
        match (match formula.groupId with
                | some gid =>
                  match getOwnedGroup db gid user.id with
                  | .error e => Except.error e
                  | .ok _ => Except.ok ()
                | none => Except.ok ()) with
        | .error e => (.error e, db)
        | .ok _ =>
          let ex : FormulaExampleRow :=
            { id := db.nextExampleId
              formulaId := input.formulaId
              title := input.title
              problem := input.problem
              solution := input.solution
              data := input.data
              createdAt := now }
          (.ok ⟨true, some (.exampleRow (some ex))⟩,
            { db with
              formulaExamples := db.formulaExamples ++ [ex]
              nextExampleId := db.nextExampleId + 1 })
  else (.error validationErr, db)

/-- Input of listFormulaExamples. -/
structure ListExamplesInput where
  formulaId : Nat
deriving DecidableEq, Repr

/-- `listFormulaExamples`: all examples with the given formulaId, with no
existence check on the formula. -/
def listFormulaExamples (input : ListExamplesInput) (ctx : Ctx)
    (db : DB) : ActionResult :=
  match requireUser ctx with
  | .error e => (.error e, db)
  | .ok _ =>
    let items := db.formulaExamples.filter (fun e => e.formulaId == input.formulaId)
    (.ok ⟨true, some (.exampleList items items.length)⟩, db)

/-- Input of upsertUserFormulaState. -/
structure UpsertStateInput where
  formulaId : Nat
  isFavorite : Option Bool := none
  note : Option String := none
  familiarity : Option Familiarity := none
deriving DecidableEq, Repr

/-- The row lookup of the upsert:
`where(and(eq(formulaId, input.formulaId), eq(userId, user.id)))`,
destructured as `[existing]`. -/
def findState (db : DB) (formulaId : Nat) (userId : String) :
    Option UserFormulaStateRow :=
  (db.userFormulaState.filter (fun s =>
    s.formulaId == formulaId && s.userId == userId)).head?

/-- The `.set({...})` object of the upsert's update branch applied to one row. -/
def applyStatePatch (input : UpsertStateInput) (now : Nat)
    (s : UserFormulaStateRow) : UserFormulaStateRow :=
  { s with
    isFavorite := input.isFavorite.getD s.isFavorite
    note := patchOpt input.note s.note
    familiarity := input.familiarity.getD s.familiarity
    updatedAt := now }

/-- The `.values({...})` row of the upsert's insert branch:
defaults `isFavorite ?? false` and `familiarity ?? "new"`. -/
def upsertInsertRow (input : UpsertStateInput) (userId : String)
    (rowId now : Nat) : UserFormulaStateRow :=
  { id := rowId
    userId := userId
    formulaId := input.formulaId
    isFavorite := input.isFavorite.getD false
    note := input.note
    familiarity := input.familiarity.getD .new
    createdAt := now
    updatedAt := now }

/-- `upsertUserFormulaState`: patch the existing row for (userId, formulaId)
when found, else insert a new row with defaults isFavorite=false,
familiarity="new". -/
def upsertUserFormulaState (input : UpsertStateInput) (ctx : Ctx) (now : Nat)
    (db : DB) : ActionResult :=
  match requireUser ctx with
  | .error e => (.error e, db)
  | .ok user =>
    match findState db input.formulaId user.id with
    | some existing =>
      let states := db.userFormulaState.map (fun s =>
        if s.id == existing.id then applyStatePatch input now s else s)
      (.ok ⟨true, some (.stateRow ((states.filter (fun s => s.id == existing.id)).head?))⟩,
        { db with userFormulaState := states })
    | none =>
      let row := upsertInsertRow input user.id db.nextStateId now
      (.ok ⟨true, some (.stateRow (some row))⟩,
        { db with
          userFormulaState := db.userFormulaState ++ [row]
          nextStateId := db.nextStateId + 1 })

/-- Input of listUserFormulaStates (after zod defaulting of favoritesOnly). -/
structure ListStatesInput where
  favoritesOnly : Bool := false
deriving DecidableEq, Repr

/-- `listUserFormulaStates`: the caller's own rows, restricted to favorites
when favoritesOnly. -/
def listUserFormulaStates (input : Option ListStatesInput) (ctx : Ctx)
    (db : DB) : ActionResult :=
  match requireUser ctx with
  | .error e => (.error e, db)
  | .ok user =>
    let favoritesOnly := (input.map (fun i => i.favoritesOnly)).getD false
    let items := db.userFormulaState.filter (fun s =>
      s.userId == user.id && (!favoritesOnly || s.isFavorite))
    (.ok ⟨true, some (.stateList items items.length)⟩, db)

/-- One call to the `server` object: an action name with its input. -/
inductive ServerCall
  | createFormulaGroup (i : CreateGroupInput)
  | updateFormulaGroup (i : UpdateGroupInput)
  | listMyFormulaGroups (i : Option ListGroupsInput)
  | createFormula (i : CreateFormulaInput)
  | updateFormula (i : UpdateFormulaInput)
  | archiveFormula (i : ArchiveFormulaInput)
  | listFormulas (i : Option ListFormulasInput)
  | createFormulaExample (i : CreateExampleInput)
  | listFormulaExamples (i : ListExamplesInput)
  | upsertUserFormulaState (i : UpsertStateInput)
  | listUserFormulaStates (i : Option ListStatesInput)
deriving DecidableEq, Repr

/-- Dispatch over the `server` object. -/
def serverDispatch : ServerCall → Ctx → Nat → DB → ActionResult
  | .createFormulaGroup i, ctx, now, db => createFormulaGroup i ctx now db
  | .updateFormulaGroup i, ctx, now, db => updateFormulaGroup i ctx now db
  | .listMyFormulaGroups i, ctx, _, db => listMyFormulaGroups i ctx db
  | .createFormula i, ctx, now, db => createFormula i ctx now db
  | .updateFormula i, ctx, now, db => updateFormula i ctx now db
  | .archiveFormula i, ctx, now, db => archiveFormula i ctx now db
  | .listFormulas i, ctx, _, db => listFormulas i ctx db
  | .createFormulaExample i, ctx, now, db => createFormulaExample i ctx now db
  | .listFormulaExamples i, ctx, _, db => listFormulaExamples i ctx db
  | .upsertUserFormulaState i, ctx, now, db => upsertUserFormulaState i ctx now db
  | .listUserFormulaStates i, ctx, _, db => listUserFormulaStates i ctx db

/-- Whether a call targets archiveFormula. -/
def ServerCall.isArchive : ServerCall → Bool
  | .archiveFormula _ => true
  | _ => false

/-- Whether the call's input passes its zod schema checks; actions whose
schemas impose nothing beyond field types always do. -/
def ServerCall.inputValid : ServerCall → Bool
  | .createFormulaGroup i => i.valid
  | .updateFormulaGroup i => i.valid
  | .listMyFormulaGroups _ => true
  | .createFormula i => i.valid
  | .updateFormula i => i.valid
  | .archiveFormula _ => true
  | .listFormulas _ => true
  | .createFormulaExample i => i.valid
  | .listFormulaExamples _ => true
  | .upsertUserFormulaState _ => true
  | .listUserFormulaStates _ => true

/-! ## General lemmas about the embedding -/

/-- The head of a filtered list satisfies the filter predicate. -/
theorem head?_filter_pred {α : Type} {p : α → Bool} {l : List α} {a : α}
    (h : (l.filter p).head? = some a) : p a = true :=
  List.of_mem_filter (List.mem_of_mem_head? h)

/-- A row produced by `findGroup db gid` has id `gid`. -/
theorem findGroup_id {db : DB} {gid : Nat} {g : FormulaGroup}
    (h : findGroup db gid = some g) : g.id = gid := by
  unfold findGroup at h
  have := head?_filter_pred (p := fun x : FormulaGroup => x.id == gid) h
  simpa using this

/-- A row produced by `findFormula db fid` has id `fid`. -/
theorem findFormula_id {db : DB} {fid : Nat} {f : Formula}
    (h : findFormula db fid = some f) : f.id = fid := by
  unfold findFormula at h
  have := head?_filter_pred (p := fun x : Formula => x.id == fid) h
  simpa using this

/-- `getOwnedGroup` only reads the FormulaGroups table. -/
theorem getOwnedGroup_congr {db1 db2 : DB} (gid : Nat) (uid : String)
    (h : db1.formulaGroups = db2.formulaGroups) :
    getOwnedGroup db1 gid uid = getOwnedGroup db2 gid uid := by
  unfold getOwnedGroup findGroup
  rw [h]

/-! ## C1: the ownership chain -/

/-- A group whose ownerId is the empty string: non-null, yet falsy in the
source guard `if (group.ownerId && group.ownerId !== userId)`. -/
def sharedOwnerGroup : FormulaGroup :=
  { id := 1, ownerId := some "", name := "Shared", createdAt := 0, updatedAt := 0 }

/-- Store holding only `sharedOwnerGroup`. -/
def dbEmptyOwner : DB := { formulaGroups := [sharedOwnerGroup] }

/-- C1 counterexample: the claim says a group with a non-null ownerId
different from userId makes `getOwnedGroup` fail with Forbidden. The group
with ownerId `""` (non-null text, different from `"u"`) resolves
successfully instead, because the source tests JavaScript truthiness of
`group.ownerId`, and the empty string is falsy. -/
theorem C1_counterexample :
    findGroup dbEmptyOwner 1 = some sharedOwnerGroup
  ∧ sharedOwnerGroup.ownerId = some ""
  ∧ sharedOwnerGroup.ownerId ≠ none
  ∧ sharedOwnerGroup.ownerId ≠ some "u"
  ∧ getOwnedGroup dbEmptyOwner 1 "u" = .ok sharedOwnerGroup := by
  decide

/-- C1 (amended): getOwnedGroup fails NotFound when the group is absent,
fails Forbidden when the group's ownerId is a non-null, non-empty string
different from userId, and returns the group otherwise (null owner, empty
owner, or owner equal to userId); ensureFormulaIsEditable fails NotFound
when the formula is absent, delegates to getOwnedGroup when the formula's
groupId is set (propagating its error), and returns the formula otherwise. -/
theorem C1_ownership_chain (db : DB) (gid fid : Nat) (uid : String) :
    (findGroup db gid = none → getOwnedGroup db gid uid = .error groupNotFoundErr)
  ∧ (∀ g o, findGroup db gid = some g → g.ownerId = some o → o ≠ "" → o ≠ uid →
      getOwnedGroup db gid uid = .error forbiddenErr)
  ∧ (∀ g, findGroup db gid = some g →
      (g.ownerId = none ∨ g.ownerId = some "" ∨ g.ownerId = some uid) →
      getOwnedGroup db gid uid = .ok g)
  ∧ (findFormula db fid = none →
      ensureFormulaIsEditable db fid uid = .error formulaNotFoundErr)
  ∧ (∀ f gid2 e, findFormula db fid = some f → f.groupId = some gid2 →
      getOwnedGroup db gid2 uid = .error e →
      ensureFormulaIsEditable db fid uid = .error e)
  ∧ (∀ f gid2 g, findFormula db fid = some f → f.groupId = some gid2 →
      getOwnedGroup db gid2 uid = .ok g →
      ensureFormulaIsEditable db fid uid = .ok f)
  ∧ (∀ f, findFormula db fid = some f → f.groupId = none →
      ensureFormulaIsEditable db fid uid = .ok f) := by
  refine ⟨?_, ?_, ?_, ?_, ?_, ?_, ?_⟩
  · intro h
    simp [getOwnedGroup, h]
  · intro g o hg ho hne hneu
    simp [getOwnedGroup, hg, ho, bne_iff_ne, hne, hneu]
  · intro g hg hcase
    rcases hcase with h | h | h <;> simp [getOwnedGroup, hg, h]
  · intro h
    simp [ensureFormulaIsEditable, h]
  · intro f gid2 e hf hgid hgo
    simp [ensureFormulaIsEditable, hf, hgid, hgo]
  · intro f gid2 g hf hgid hgo
    simp [ensureFormulaIsEditable, hf, hgid, hgo]
  · intro f hf hgid
    simp [ensureFormulaIsEditable, hf, hgid]

/-- A group owned by "alice". -/
def aliceGroup : FormulaGroup :=
  { id := 1, ownerId := some "alice", name := "G", createdAt := 0, updatedAt := 0 }

/-- Store holding only `aliceGroup`. -/
def dbAlice : DB := { formulaGroups := [aliceGroup] }

/-- C1 witness: instantiating the amended theorem — "bob" asking for
"alice"'s group is Forbidden. -/
theorem C1_ownership_chain_witness :
    findGroup dbAlice 1 = some aliceGroup
  ∧ getOwnedGroup dbAlice 1 "bob" = .error forbiddenErr :=
  ⟨by decide,
    (C1_ownership_chain dbAlice 1 0 "bob").2.1 aliceGroup "alice"
      (by decide) (by decide) (by decide) (by decide)⟩

/-! ## C7: Unauthorized before Forbidden -/

/-- Another group whose ownerId is the empty string (non-null). -/
def sGroup : FormulaGroup :=
  { id := 3, ownerId := some "", name := "S", createdAt := 0, updatedAt := 0 }

/-- Store holding only `sGroup`. -/
def dbS7 : DB := { formulaGroups := [sGroup] }

/-- C7 counterexample: the claim says an authenticated caller who is not the
owner of a group with a non-null owner receives Forbidden on update. User
"u" is not the owner of group 3, whose ownerId is the non-null empty
string; yet updateFormulaGroup succeeds, because the source guard tests
JavaScript truthiness of `group.ownerId` and `""` is falsy. -/
theorem C7_counterexample :
    sGroup.ownerId ≠ none
  ∧ sGroup.ownerId ≠ some "u"
  ∧ findGroup dbS7 3 = some sGroup
  ∧ (updateFormulaGroup { id := 3, name := some "N" } ⟨some ⟨"u"⟩⟩ 9 dbS7).1
      = .ok ⟨true, some (.group (some { sGroup with name := "N", updatedAt := 9 }))⟩ := by
  decide

/-- C7 (amended): for every action of the `server` object, an
unauthenticated call with schema-valid input fails Unauthorized with the
store untouched, whatever the store contains (so before any ownership
lookup); an unauthenticated call always fails with Unauthorized or with the
schema rejection that precedes the handler, never touching the store, so an
unauthenticated caller never receives Forbidden; an authenticated caller
who is not the owner of a group whose ownerId is a non-null, non-empty
string receives Forbidden on updateFormulaGroup with the store untouched. -/
theorem C7_unauthorized_before_forbidden (c : ServerCall) (ctx : Ctx)
    (now : Nat) (db : DB) :
    (ctx.user = none → c.inputValid = true →
      serverDispatch c ctx now db = (.error unauthorizedErr, db))
  ∧ (ctx.user = none →
      serverDispatch c ctx now db = (.error unauthorizedErr, db)
      ∨ serverDispatch c ctx now db = (.error validationErr, db))
  ∧ (ctx.user = none → ∀ m,
      (serverDispatch c ctx now db).1 ≠ .error ⟨.forbidden, m⟩)
  ∧ (∀ (i : UpdateGroupInput) (u : User) (g : FormulaGroup) (o : String),
      c = .updateFormulaGroup i → ctx.user = some u → i.valid = true →
      findGroup db i.id = some g → g.ownerId = some o → o ≠ "" → o ≠ u.id →
      serverDispatch c ctx now db = (.error forbiddenErr, db)) := by
  have hmain : ctx.user = none →
      serverDispatch c ctx now db = (.error unauthorizedErr, db)
      ∨ serverDispatch c ctx now db = (.error validationErr, db) := by
    intro hc
    cases c <;>
      simp only [serverDispatch, createFormulaGroup, updateFormulaGroup,
        listMyFormulaGroups, createFormula, updateFormula, archiveFormula,
        listFormulas, createFormulaExample, listFormulaExamples,
        upsertUserFormulaState, listUserFormulaStates, requireUser, hc] <;>
      first
        | exact Or.inl trivial
        | exact Or.inl rfl
        | (split
           · first
              | exact Or.inl trivial
              | exact Or.inl rfl
           · first
              | exact Or.inr trivial
              | exact Or.inr rfl)
  refine ⟨?_, hmain, ?_, ?_⟩
  · intro hc hv
    cases c <;>
      (try simp only [ServerCall.inputValid] at hv) <;>
      simp [serverDispatch, createFormulaGroup, updateFormulaGroup,
        listMyFormulaGroups, createFormula, updateFormula, archiveFormula,
        listFormulas, createFormulaExample, listFormulaExamples,
        upsertUserFormulaState, listUserFormulaStates, requireUser, hc, hv]
  · intro hc m
    rcases hmain hc with h | h <;> rw [h] <;>
      simp [unauthorizedErr, validationErr]
  · intro i u g o hcc hu hv hfind ho hne hneu
    subst hcc
    simp [serverDispatch, updateFormulaGroup, hv, requireUser, hu,
      getOwnedGroup, hfind, ho, bne_iff_ne, hne, hneu]

/-- C7 witness: without authentication, updating "alice"'s group and
archiving a formula both fail Unauthorized with the store untouched, while
authenticated "bob" updating "alice"'s group gets Forbidden. -/
theorem C7_unauthorized_before_forbidden_witness :
    findGroup dbAlice 1 = some aliceGroup
  ∧ serverDispatch (.updateFormulaGroup { id := 1, name := some "X" }) ⟨none⟩ 4 dbAlice
      = (.error unauthorizedErr, dbAlice)
  ∧ serverDispatch (.archiveFormula ⟨1⟩) ⟨none⟩ 4 dbAlice
      = (.error unauthorizedErr, dbAlice)
  ∧ serverDispatch (.updateFormulaGroup { id := 1, name := some "X" }) ⟨some ⟨"bob"⟩⟩ 4 dbAlice
      = (.error forbiddenErr, dbAlice) :=
  ⟨by decide,
    (C7_unauthorized_before_forbidden (.updateFormulaGroup { id := 1, name := some "X" })
      ⟨none⟩ 4 dbAlice).1 rfl (by decide),
    (C7_unauthorized_before_forbidden (.archiveFormula ⟨1⟩) ⟨none⟩ 4 dbAlice).1
      rfl (by decide),
    (C7_unauthorized_before_forbidden (.updateFormulaGroup { id := 1, name := some "X" })
      ⟨some ⟨"bob"⟩⟩ 4 dbAlice).2.2.2 { id := 1, name := some "X" } ⟨"bob"⟩
      aliceGroup "alice" rfl rfl (by decide) (by decide) (by decide) (by decide)
      (by decide)⟩

/-! ## C2: destination-group check on updateFormula -/

/-- C2: when updateFormula is called with a groupId, edit rights on the
formula's current location are verified first (an ensureFormulaIsEditable
failure is returned as-is with the store untouched), and when that check
passes but the destination group is owned by someone else the call fails
Forbidden with the store untouched — no write occurs. -/
theorem C2_destination_check (input : UpdateFormulaInput) (ctx : Ctx)
    (now : Nat) (db : DB) (u : User) (gdest : Nat)
    (hu : ctx.user = some u) (hv : input.valid = true)
    (hg : input.groupId = some gdest) :
    (∀ e, ensureFormulaIsEditable db input.id u.id = .error e →
      updateFormula input ctx now db = (.error e, db))
  ∧ (∀ f g o, ensureFormulaIsEditable db input.id u.id = .ok f →
      findGroup db gdest = some g → g.ownerId = some o → o ≠ "" → o ≠ u.id →
      updateFormula input ctx now db = (.error forbiddenErr, db)) := by
  constructor
  · intro e he
    simp [updateFormula, hv, requireUser, hu, he]
  · intro f g o hf hgd ho hne hneu
    simp [updateFormula, hv, requireUser, hu, hf, destinationCheck, hg,
      getOwnedGroup, hgd, ho, bne_iff_ne, hne, hneu]

/-- A group owned by "alice" serving as a move destination. -/
def destGroup : FormulaGroup :=
  { id := 2, ownerId := some "alice", name := "D", createdAt := 0, updatedAt := 0 }

/-- A formula with no group (editable by anyone). -/
def freeFormula : Formula :=
  { id := 1, name := "F", expression := "x", createdAt := 0, updatedAt := 0 }

/-- Store for the move scenario. -/
def dbMove : DB := { formulaGroups := [destGroup], formulas := [freeFormula] }

/-- C2 witness: "bob" may edit the ungrouped formula but moving it into
"alice"'s group is Forbidden and leaves the store unchanged. -/
theorem C2_destination_check_witness :
    ensureFormulaIsEditable dbMove 1 "bob" = .ok freeFormula
  ∧ updateFormula { id := 1, groupId := some 2 } ⟨some ⟨"bob"⟩⟩ 5 dbMove
      = (.error forbiddenErr, dbMove) :=
  ⟨by decide,
    (C2_destination_check { id := 1, groupId := some 2 } ⟨some ⟨"bob"⟩⟩ 5 dbMove
        ⟨"bob"⟩ 2 rfl (by decide) rfl).2 freeFormula destGroup "alice"
      (by decide) (by decide) (by decide) (by decide) (by decide)⟩

/-! ## C3: partial-update frame property -/

/-- C3: a successful updateFormulaGroup rewrites only the FormulaGroups
table, and only its rows with the target id, via `applyGroupPatch`; a
successful updateFormula does the same to Formulas via `applyFormulaPatch`.
A row with another id is untouched, and the patch leaves every unsupplied
field at its prior value, sets every supplied field to the supplied value,
refreshes updatedAt unconditionally, and never alters id, createdAt or (for
groups) ownerId. -/
theorem C3_partial_update (ctx : Ctx) (now : Nat) (db : DB) :
    (∀ (gi : UpdateGroupInput) (out : ActionOutput) (db2 : DB),
      updateFormulaGroup gi ctx now db = (.ok out, db2) →
        db2.formulaGroups = db.formulaGroups.map
          (fun g => if g.id == gi.id then applyGroupPatch gi now g else g)
      ∧ db2.formulas = db.formulas
      ∧ db2.formulaExamples = db.formulaExamples
      ∧ db2.userFormulaState = db.userFormulaState
      ∧ (∀ g : FormulaGroup, g.id ≠ gi.id →
          (if g.id == gi.id then applyGroupPatch gi now g else g) = g)
      ∧ (∀ g : FormulaGroup,
          (applyGroupPatch gi now g).updatedAt = now
        ∧ (applyGroupPatch gi now g).id = g.id
        ∧ (applyGroupPatch gi now g).ownerId = g.ownerId
        ∧ (applyGroupPatch gi now g).createdAt = g.createdAt
        ∧ (gi.name = none → (applyGroupPatch gi now g).name = g.name)
        ∧ (∀ v, gi.name = some v → (applyGroupPatch gi now g).name = v)
        ∧ (gi.subject = none → (applyGroupPatch gi now g).subject = g.subject)
        ∧ (∀ v, gi.subject = some v → (applyGroupPatch gi now g).subject = some v)
        ∧ (gi.tags = none → (applyGroupPatch gi now g).tags = g.tags)
        ∧ (∀ v, gi.tags = some v → (applyGroupPatch gi now g).tags = some v)
        ∧ (gi.description = none → (applyGroupPatch gi now g).description = g.description)
        ∧ (∀ v, gi.description = some v → (applyGroupPatch gi now g).description = some v)
        ∧ (gi.slug = none → (applyGroupPatch gi now g).slug = g.slug)
        ∧ (∀ v, gi.slug = some v → (applyGroupPatch gi now g).slug = some v)
        ∧ (gi.isActive = none → (applyGroupPatch gi now g).isActive = g.isActive)
        ∧ (∀ v, gi.isActive = some v → (applyGroupPatch gi now g).isActive = v)))
  ∧ (∀ (fi : UpdateFormulaInput) (out : ActionOutput) (db2 : DB),
      updateFormula fi ctx now db = (.ok out, db2) →
        db2.formulas = db.formulas.map
          (fun f => if f.id == fi.id then applyFormulaPatch fi now f else f)
      ∧ db2.formulaGroups = db.formulaGroups
      ∧ db2.formulaExamples = db.formulaExamples
      ∧ db2.userFormulaState = db.userFormulaState
      ∧ (∀ f : Formula, f.id ≠ fi.id →
          (if f.id == fi.id then applyFormulaPatch fi now f else f) = f)
      ∧ (∀ f : Formula,
          (applyFormulaPatch fi now f).updatedAt = now
        ∧ (applyFormulaPatch fi now f).id = f.id
        ∧ (applyFormulaPatch fi now f).createdAt = f.createdAt
        ∧ (fi.groupId = none → (applyFormulaPatch fi now f).groupId = f.groupId)
        ∧ (∀ v, fi.groupId = some v → (applyFormulaPatch fi now f).groupId = some v)
        ∧ (fi.name = none → (applyFormulaPatch fi now f).name = f.name)
        ∧ (∀ v, fi.name = some v → (applyFormulaPatch fi now f).name = v)
        ∧ (fi.expression = none → (applyFormulaPatch fi now f).expression = f.expression)
        ∧ (∀ v, fi.expression = some v → (applyFormulaPatch fi now f).expression = v)
        ∧ (fi.description = none → (applyFormulaPatch fi now f).description = f.description)
        ∧ (∀ v, fi.description = some v → (applyFormulaPatch fi now f).description = some v)
        ∧ (fi.vars = none → (applyFormulaPatch fi now f).vars = f.vars)
        ∧ (∀ v, fi.vars = some v → (applyFormulaPatch fi now f).vars = some v)
        ∧ (fi.meta = none → (applyFormulaPatch fi now f).meta = f.meta)
        ∧ (∀ v, fi.meta = some v → (applyFormulaPatch fi now f).meta = some v)
        ∧ (fi.difficulty = none → (applyFormulaPatch fi now f).difficulty = f.difficulty)
        ∧ (∀ v, fi.difficulty = some v → (applyFormulaPatch fi now f).difficulty = v)
        ∧ (fi.isActive = none → (applyFormulaPatch fi now f).isActive = f.isActive)
        ∧ (∀ v, fi.isActive = some v → (applyFormulaPatch fi now f).isActive = v))) := by
  constructor
  · intro gi out db2 h
    unfold updateFormulaGroup at h
    split at h
    · split at h
      · exact absurd h (by simp)
      · split at h
        · exact absurd h (by simp)
        · simp only [Prod.mk.injEq, Except.ok.injEq] at h
          obtain ⟨hout, hdb⟩ := h
          subst hdb
          refine ⟨rfl, rfl, rfl, rfl, ?_, ?_⟩
          · intro g hne
            have hb : (g.id == gi.id) = false := beq_eq_false_iff_ne.mpr hne
            simp [hb]
          · intro g
            unfold applyGroupPatch patchOpt
            refine ⟨rfl, rfl, rfl, rfl, ?_, ?_, ?_, ?_, ?_, ?_, ?_, ?_, ?_, ?_, ?_, ?_⟩ <;>
              first
                | (intro hv; simp [hv])
                | (intro v hv; simp [hv])
    · exact absurd h (by simp)
  · intro fi out db2 h
    unfold updateFormula at h
    split at h
    · split at h
      · exact absurd h (by simp)
      · split at h
        · exact absurd h (by simp)
        · split at h
          · exact absurd h (by simp)
          · simp only [Prod.mk.injEq, Except.ok.injEq] at h
            obtain ⟨hout, hdb⟩ := h
            subst hdb
            refine ⟨rfl, rfl, rfl, rfl, ?_, ?_⟩
            · intro f hne
              have hb : (f.id == fi.id) = false := beq_eq_false_iff_ne.mpr hne
              simp [hb]
            · intro f
              unfold applyFormulaPatch patchOpt
              refine ⟨rfl, rfl, rfl, ?_, ?_, ?_, ?_, ?_, ?_, ?_, ?_, ?_, ?_, ?_, ?_, ?_, ?_, ?_, ?_⟩ <;>
                first
                  | (intro hv; simp [hv])
                  | (intro v hv; simp [hv])
    · exact absurd h (by simp)

/-- A group owned by "w" for the C3 witness. -/
def c3Group : FormulaGroup :=
  { id := 1, ownerId := some "w", name := "G", subject := some "Phys",
    createdAt := 0, updatedAt := 0 }

/-- An ungrouped formula for the C3 witness. -/
def c3Formula : Formula :=
  { id := 1, name := "F", expression := "x", createdAt := 0, updatedAt := 0 }

/-- Store for the C3 witness. -/
def dbC3 : DB := { formulaGroups := [c3Group], formulas := [c3Formula] }

/-- C3 witness: updating only `tags` on the group rewrites the table through
the patch map, and updating only `name` on the formula likewise. -/
theorem C3_partial_update_witness :
    (updateFormulaGroup { id := 1, tags := some "t" } ⟨some ⟨"w"⟩⟩ 7 dbC3).2.formulaGroups
      = dbC3.formulaGroups.map
          (fun g => if g.id == (1 : Nat) then applyGroupPatch { id := 1, tags := some "t" } 7 g else g)
  ∧ (updateFormula { id := 1, name := some "N" } ⟨some ⟨"w"⟩⟩ 7 dbC3).2.formulas
      = dbC3.formulas.map
          (fun f => if f.id == (1 : Nat) then applyFormulaPatch { id := 1, name := some "N" } 7 f else f) :=
  ⟨((C3_partial_update ⟨some ⟨"w"⟩⟩ 7 dbC3).1 { id := 1, tags := some "t" }
      ⟨true, some (.group (some { c3Group with tags := some "t", updatedAt := 7 }))⟩
      { dbC3 with formulaGroups := [{ c3Group with tags := some "t", updatedAt := 7 }] }
      (by decide)).1,
    ((C3_partial_update ⟨some ⟨"w"⟩⟩ 7 dbC3).2 { id := 1, name := some "N" }
      ⟨true, some (.formulaRow (some { c3Formula with name := "N", updatedAt := 7 }))⟩
      { dbC3 with formulas := [{ c3Formula with name := "N", updatedAt := 7 }] }
      (by decide)).1⟩

/-! ## C5: archive sets isActive=false, keeps the row, and is idempotent -/

/-- Filtering a mapped list commutes with mapping the filtered list when the
map preserves the predicate. -/
theorem filter_map_comm {α : Type} (p : α → Bool) (step : α → α) (l : List α)
    (hp : ∀ a, p (step a) = p a) :
    (l.map step).filter p = (l.filter p).map step := by
  rw [List.filter_map]
  congr 1
  exact List.filter_congr (fun a _ => hp a)

/-- Archiving an already-inactive row only refreshes updatedAt. -/
theorem archivePatch_of_inactive {x : Formula} (now : Nat)
    (h : x.isActive = false) :
    archivePatch now x = { x with updatedAt := now } := by
  cases x
  simp_all [archivePatch]

/-- The exact result of archiveFormula when the caller is authenticated and
the formula is editable. -/
theorem archive_shape (input : ArchiveFormulaInput) (ctx : Ctx) (now : Nat)
    (db : DB) (u : User) (f : Formula) (hu : ctx.user = some u)
    (hed : ensureFormulaIsEditable db input.id u.id = .ok f) :
    archiveFormula input ctx now db =
      (.ok ⟨true, none⟩,
        { db with formulas := (db.formulas.map
            (fun g => if g.id == input.id then archivePatch now g else g)) }) := by
  simp [archiveFormula, requireUser, hu, hed]

/-- Inverting a successful editability check: the formula was found, and
when it has a group the ownership check succeeded. -/
theorem ensure_ok_inversion {db : DB} {fid : Nat} {uid : String} {f : Formula}
    (h : ensureFormulaIsEditable db fid uid = .ok f) :
    findFormula db fid = some f ∧
    (∀ gid, f.groupId = some gid → ∃ g, getOwnedGroup db gid uid = .ok g) := by
  unfold ensureFormulaIsEditable at h
  cases hff : findFormula db fid with
  | none => simp [hff] at h
  | some f0 =>
    simp only [hff] at h
    cases hg : f0.groupId with
    | none =>
      simp only [hg] at h
      obtain rfl : f0 = f := by simpa using h
      refine ⟨rfl, ?_⟩
      intro gid hgid
      rw [hg] at hgid
      cases hgid
    | some gid0 =>
      simp only [hg] at h
      cases hgo : getOwnedGroup db gid0 uid with
      | error e => simp [hgo] at h
      | ok g =>
        simp only [hgo] at h
        obtain rfl : f0 = f := by simpa using h
        refine ⟨rfl, ?_⟩
        intro gid hgid
        rw [hg] at hgid
        obtain rfl : gid0 = gid := by simpa using hgid
        exact ⟨g, hgo⟩

/-- C5: for a formula editable by the caller, archiveFormula succeeds with a
data-less envelope, rewrites only rows with the target id to
isActive=false/updatedAt=now (all other fields and rows intact), never
removes a row (the table keeps its length), and a second archive changes
the target rows by nothing but updatedAt. -/
theorem C5_archive_idempotent (input : ArchiveFormulaInput) (ctx : Ctx)
    (u : User) (now1 now2 : Nat) (db : DB) (f : Formula)
    (hu : ctx.user = some u)
    (hed : ensureFormulaIsEditable db input.id u.id = .ok f) :
    (archiveFormula input ctx now1 db).1 = .ok ⟨true, none⟩
  ∧ (archiveFormula input ctx now1 db).2.formulas
      = db.formulas.map (fun g => if g.id == input.id then archivePatch now1 g else g)
  ∧ (archiveFormula input ctx now1 db).2.formulas.length = db.formulas.length
  ∧ (∀ g : Formula,
        (archivePatch now1 g).isActive = false
      ∧ (archivePatch now1 g).updatedAt = now1
      ∧ (archivePatch now1 g).id = g.id
      ∧ (archivePatch now1 g).groupId = g.groupId
      ∧ (archivePatch now1 g).name = g.name
      ∧ (archivePatch now1 g).expression = g.expression
      ∧ (archivePatch now1 g).description = g.description
      ∧ (archivePatch now1 g).vars = g.vars
      ∧ (archivePatch now1 g).meta = g.meta
      ∧ (archivePatch now1 g).difficulty = g.difficulty
      ∧ (archivePatch now1 g).createdAt = g.createdAt)
  ∧ (archiveFormula input ctx now2 (archiveFormula input ctx now1 db).2).1
      = .ok ⟨true, none⟩
  ∧ (archiveFormula input ctx now2 (archiveFormula input ctx now1 db).2).2.formulas
      = (archiveFormula input ctx now1 db).2.formulas.map
          (fun g => if g.id == input.id then { g with updatedAt := now2 } else g) := by
  obtain ⟨hff, hgrp⟩ := ensure_ok_inversion hed
  have hfid : f.id = input.id := findFormula_id hff
  -- The first archive.
  have h1 := archive_shape input ctx now1 db u f hu hed
  -- The formula as the first archive leaves it.
  have hfind1 : findFormula (archiveFormula input ctx now1 db).2 input.id
      = some (archivePatch now1 f) := by
    rw [h1]
    show ((db.formulas.map _).filter _).head? = _
    rw [filter_map_comm _ _ _ (by
      intro a
      by_cases hb : (a.id == input.id) = true <;> simp [hb, archivePatch])]
    rw [List.head?_map]
    have hchain : (db.formulas.filter (fun g => g.id == input.id)).head? = some f := hff
    rw [hchain]
    simp [hfid, archivePatch]
  have hgroups : (archiveFormula input ctx now1 db).2.formulaGroups = db.formulaGroups := by
    rw [h1]
  -- Editability survives the first archive.
  have hed1 : ensureFormulaIsEditable (archiveFormula input ctx now1 db).2 input.id u.id
      = .ok (archivePatch now1 f) := by
    unfold ensureFormulaIsEditable
    simp only [hfind1]
    cases hg : f.groupId with
    | none => simp [archivePatch, hg]
    | some gid =>
      obtain ⟨g, hgo⟩ := hgrp gid hg
      simp [archivePatch, hg, getOwnedGroup_congr gid u.id hgroups, hgo]
  -- The second archive.
  have h2 := archive_shape input ctx now2 (archiveFormula input ctx now1 db).2 u
    (archivePatch now1 f) hu hed1
  refine ⟨by rw [h1], by rw [h1], ?_, ?_, by rw [h2], ?_⟩
  · rw [h1]
    simp
  · intro g
    exact ⟨rfl, rfl, rfl, rfl, rfl, rfl, rfl, rfl, rfl, rfl, rfl⟩
  · rw [show (archiveFormula input ctx now2 (archiveFormula input ctx now1 db).2).2.formulas
        = (archiveFormula input ctx now1 db).2.formulas.map
            (fun g => if g.id == input.id then archivePatch now2 g else g) from by rw [h2]]
    apply List.map_congr_left
    intro x hx
    rw [h1] at hx
    simp only [List.mem_map] at hx
    obtain ⟨y, _, hy⟩ := hx
    by_cases hb : (x.id == input.id) = true
    · -- x is an archived copy of y, hence inactive.
      have hxin : x.isActive = false := by
        by_cases hyb : (y.id == input.id) = true
        · rw [hyb] at hy
          rw [← hy]
          simp [archivePatch]
        · rw [if_neg (by simpa using hyb)] at hy
          subst hy
          exact absurd hb (by simpa using hyb)
      rw [hb]
      simp only [if_pos rfl]
      exact archivePatch_of_inactive now2 hxin
    · simp [hb]

/-- Store for the C5 witness: one active ungrouped formula. -/
def dbC5 : DB :=
  { formulas := [{ id := 4, name := "E", expression := "y", createdAt := 0, updatedAt := 0 }] }

/-- C5 witness: archiving formula 4 twice succeeds with the data-less
envelope and the second pass only bumps updatedAt. -/
theorem C5_archive_idempotent_witness :
    ensureFormulaIsEditable dbC5 4 "zoe"
      = .ok { id := 4, name := "E", expression := "y", createdAt := 0, updatedAt := 0 }
  ∧ (archiveFormula ⟨4⟩ ⟨some ⟨"zoe"⟩⟩ 1 dbC5).1 = .ok ⟨true, none⟩
  ∧ (archiveFormula ⟨4⟩ ⟨some ⟨"zoe"⟩⟩ 2 (archiveFormula ⟨4⟩ ⟨some ⟨"zoe"⟩⟩ 1 dbC5).2).2.formulas
      = (archiveFormula ⟨4⟩ ⟨some ⟨"zoe"⟩⟩ 1 dbC5).2.formulas.map
          (fun g => if g.id == (4 : Nat) then { g with updatedAt := 2 } else g) :=
  ⟨by decide,
    (C5_archive_idempotent ⟨4⟩ ⟨some ⟨"zoe"⟩⟩ ⟨"zoe"⟩ 1 2 dbC5
      { id := 4, name := "E", expression := "y", createdAt := 0, updatedAt := 0 }
      rfl (by decide)).1,
    (C5_archive_idempotent ⟨4⟩ ⟨some ⟨"zoe"⟩⟩ ⟨"zoe"⟩ 1 2 dbC5
      { id := 4, name := "E", expression := "y", createdAt := 0, updatedAt := 0 }
      rfl (by decide)).2.2.2.2.2⟩

/-! ## C4: upserting user state twice with identical input -/

/-- The exact result of the upsert's update branch. -/
theorem upsert_update_shape (input : UpsertStateInput) (ctx : Ctx) (now : Nat)
    (db : DB) (u : User) (ex : UserFormulaStateRow)
    (hu : ctx.user = some u)
    (hfind : findState db input.formulaId u.id = some ex) :
    upsertUserFormulaState input ctx now db =
      (.ok ⟨true, some (.stateRow
          (((db.userFormulaState.map
              (fun s => if s.id == ex.id then applyStatePatch input now s else s)).filter
            (fun s => s.id == ex.id)).head?))⟩,
        { db with userFormulaState :=
            (db.userFormulaState.map
              (fun s => if s.id == ex.id then applyStatePatch input now s else s)) }) := by
  simp [upsertUserFormulaState, requireUser, hu, hfind]

/-- Patching the freshly inserted row with the same input only bumps
updatedAt. -/
theorem applyStatePatch_insertRow (input : UpsertStateInput) (uid : String)
    (rowId now1 now2 : Nat) :
    applyStatePatch input now2 (upsertInsertRow input uid rowId now1)
      = { upsertInsertRow input uid rowId now1 with updatedAt := now2 } := by
  cases hb : input.isFavorite <;> cases hn : input.note <;>
    cases hf : input.familiarity <;>
    simp [applyStatePatch, upsertInsertRow, patchOpt, hb, hn, hf]

/-- C4: starting from a store with no state row for (userId, formulaId) and
with ids below the autoincrement counter, running upsertUserFormulaState
twice with the same input inserts exactly one row on the first call and
patches that same row on the second, leaving exactly one row for the pair:
its supplied fields carry the supplied values, its omitted fields carry
the first call's defaults (isFavorite=false, familiarity="new", note as
given), and its updatedAt is the second call's time. No other row changes. -/
theorem C4_upsert_idempotent (input : UpsertStateInput) (ctx : Ctx) (u : User)
    (now1 now2 : Nat) (db : DB)
    (hu : ctx.user = some u)
    (hfresh : ∀ s ∈ db.userFormulaState, s.id < db.nextStateId)
    (hnone : findState db input.formulaId u.id = none) :
    (upsertUserFormulaState input ctx now1 db).1
      = .ok ⟨true, some (.stateRow (some (upsertInsertRow input u.id db.nextStateId now1)))⟩
  ∧ (upsertUserFormulaState input ctx now1 db).2.userFormulaState
      = db.userFormulaState ++ [upsertInsertRow input u.id db.nextStateId now1]
  ∧ (upsertUserFormulaState input ctx now2 (upsertUserFormulaState input ctx now1 db).2).1
      = .ok ⟨true, some (.stateRow (some
          { upsertInsertRow input u.id db.nextStateId now1 with updatedAt := now2 }))⟩
  ∧ (upsertUserFormulaState input ctx now2 (upsertUserFormulaState input ctx now1 db).2).2.userFormulaState
      = db.userFormulaState
          ++ [{ upsertInsertRow input u.id db.nextStateId now1 with updatedAt := now2 }]
  ∧ ((upsertUserFormulaState input ctx now2 (upsertUserFormulaState input ctx now1 db).2).2.userFormulaState.filter
        (fun s => s.formulaId == input.formulaId && s.userId == u.id))
      = [{ upsertInsertRow input u.id db.nextStateId now1 with updatedAt := now2 }]
  ∧ (input.isFavorite = none →
      (upsertInsertRow input u.id db.nextStateId now1).isFavorite = false)
  ∧ (∀ b, input.isFavorite = some b →
      (upsertInsertRow input u.id db.nextStateId now1).isFavorite = b)
  ∧ (input.familiarity = none →
      (upsertInsertRow input u.id db.nextStateId now1).familiarity = .new)
  ∧ (∀ fam, input.familiarity = some fam →
      (upsertInsertRow input u.id db.nextStateId now1).familiarity = fam)
  ∧ (upsertInsertRow input u.id db.nextStateId now1).note = input.note
  ∧ (upsertInsertRow input u.id db.nextStateId now1).userId = u.id
  ∧ (upsertInsertRow input u.id db.nextStateId now1).formulaId = input.formulaId := by
  have hrowid : (upsertInsertRow input u.id db.nextStateId now1).id = db.nextStateId := rfl
  have hfilter0 : db.userFormulaState.filter
      (fun s => s.formulaId == input.formulaId && s.userId == u.id) = [] := by
    have := hnone
    unfold findState at this
    exact List.head?_eq_none_iff.mp this
  -- First call: the insert branch.
  have h1 : upsertUserFormulaState input ctx now1 db =
      (.ok ⟨true, some (.stateRow (some (upsertInsertRow input u.id db.nextStateId now1)))⟩,
        { db with
          userFormulaState :=
            db.userFormulaState ++ [upsertInsertRow input u.id db.nextStateId now1]
          nextStateId := db.nextStateId + 1 }) := by
    simp [upsertUserFormulaState, requireUser, hu, hnone]
  -- The pair lookup of the second call finds the inserted row.
  have hfind1 : findState (upsertUserFormulaState input ctx now1 db).2
      input.formulaId u.id = some (upsertInsertRow input u.id db.nextStateId now1) := by
    rw [h1]
    unfold findState
    show ((db.userFormulaState ++ _).filter _).head? = _
    rw [List.filter_append, hfilter0]
    simp [upsertInsertRow]
  -- The table the second call's update produces.
  have hstates : (upsertUserFormulaState input ctx now1 db).2.userFormulaState.map
      (fun s => if s.id == (upsertInsertRow input u.id db.nextStateId now1).id
        then applyStatePatch input now2 s else s)
      = db.userFormulaState
          ++ [{ upsertInsertRow input u.id db.nextStateId now1 with updatedAt := now2 }] := by
    rw [h1]
    show (db.userFormulaState ++ _).map _ = _
    rw [List.map_append]
    congr 1
    · apply List.map_congr_left ?_ |>.trans (List.map_id db.userFormulaState)
      intro s hs
      have hlt : s.id < db.nextStateId := hfresh s hs
      have hb : (s.id == (upsertInsertRow input u.id db.nextStateId now1).id) = false := by
        rw [hrowid]
        exact beq_eq_false_iff_ne.mpr (Nat.ne_of_lt hlt)
      simp [hb]
    · simp [applyStatePatch_insertRow]
  -- Second call: the update branch.
  have hret : ((db.userFormulaState
        ++ [{ upsertInsertRow input u.id db.nextStateId now1 with updatedAt := now2 }]).filter
      (fun s : UserFormulaStateRow =>
        s.id == (upsertInsertRow input u.id db.nextStateId now1).id)).head?
      = some { upsertInsertRow input u.id db.nextStateId now1 with updatedAt := now2 } := by
    rw [List.filter_append]
    have hleft : db.userFormulaState.filter
        (fun s => s.id == (upsertInsertRow input u.id db.nextStateId now1).id) = [] := by
      apply List.filter_eq_nil_iff.mpr
      intro s hs
      have hlt : s.id < db.nextStateId := hfresh s hs
      rw [hrowid]
      simp [Nat.ne_of_lt hlt]
    rw [hleft]
    simp [upsertInsertRow]
  have h2 : upsertUserFormulaState input ctx now2 (upsertUserFormulaState input ctx now1 db).2
      = (.ok ⟨true, some (.stateRow (some
            { upsertInsertRow input u.id db.nextStateId now1 with updatedAt := now2 }))⟩,
          { (upsertUserFormulaState input ctx now1 db).2 with
            userFormulaState :=
              db.userFormulaState
                ++ [{ upsertInsertRow input u.id db.nextStateId now1 with updatedAt := now2 }] }) := by
    rw [upsert_update_shape input ctx now2 (upsertUserFormulaState input ctx now1 db).2 u
      (upsertInsertRow input u.id db.nextStateId now1) hu hfind1]
    rw [hstates, hret]
  refine ⟨by rw [h1], by rw [h1], by rw [h2], by rw [h2], ?_, ?_, ?_, ?_, ?_, rfl, rfl, rfl⟩
  · rw [show (upsertUserFormulaState input ctx now2
          (upsertUserFormulaState input ctx now1 db).2).2.userFormulaState
        = db.userFormulaState
            ++ [{ upsertInsertRow input u.id db.nextStateId now1 with updatedAt := now2 }]
      from by rw [h2]]
    rw [List.filter_append, hfilter0]
    simp [upsertInsertRow]
  · intro hb
    simp [upsertInsertRow, hb]
  · intro b hb
    simp [upsertInsertRow, hb]
  · intro hf
    simp [upsertInsertRow, hf]
  · intro fam hf
    simp [upsertInsertRow, hf]

/-- C4 witness: favoriting formula 2 twice from an empty store leaves one
favorite row patched to the second call's time. -/
theorem C4_upsert_idempotent_witness :
    findState {} 2 "pat" = none
  ∧ ((upsertUserFormulaState { formulaId := 2, isFavorite := some true } ⟨some ⟨"pat"⟩⟩ 8
        (upsertUserFormulaState { formulaId := 2, isFavorite := some true } ⟨some ⟨"pat"⟩⟩ 3
          {}).2).2.userFormulaState.filter
      (fun s => s.formulaId == (2 : Nat) && s.userId == "pat"))
      = [{ upsertInsertRow { formulaId := 2, isFavorite := some true } "pat" 1 3 with updatedAt := 8 }] :=
  ⟨by decide,
    (C4_upsert_idempotent { formulaId := 2, isFavorite := some true } ⟨some ⟨"pat"⟩⟩ ⟨"pat"⟩
      3 8 {} rfl (by intro s hs; cases hs) (by decide)).2.2.2.2.1⟩

/-! ## C8: formulas without a group are editable by every user -/

/-- C8: when a formula exists and its groupId is null, the editability check
succeeds for every userId — so any authenticated user can archive it, create
examples for it, and update it (without moving it), with no ownership
consulted on the formula itself. -/
theorem C8_ungrouped_editable_by_all (db : DB) (fid : Nat) (f : Formula)
    (hf : findFormula db fid = some f) (hg : f.groupId = none) :
    (∀ uid, ensureFormulaIsEditable db fid uid = .ok f)
  ∧ (∀ (ctx : Ctx) (u : User) (now : Nat), ctx.user = some u →
      (archiveFormula ⟨fid⟩ ctx now db).1 = .ok ⟨true, none⟩)
  ∧ (∀ (i : CreateExampleInput) (ctx : Ctx) (u : User) (now : Nat),
      ctx.user = some u → i.valid = true → i.formulaId = fid →
      (createFormulaExample i ctx now db).1 = .ok ⟨true, some (.exampleRow (some
        { id := db.nextExampleId, formulaId := i.formulaId, title := i.title,
          problem := i.problem, solution := i.solution, data := i.data,
          createdAt := now }))⟩)
  ∧ (∀ (i : UpdateFormulaInput) (ctx : Ctx) (u : User) (now : Nat),
      ctx.user = some u → i.valid = true → i.id = fid → i.groupId = none →
      ∃ d, (updateFormula i ctx now db).1 = .ok ⟨true, some d⟩) := by
  have hens : ∀ uid, ensureFormulaIsEditable db fid uid = .ok f := by
    intro uid
    simp [ensureFormulaIsEditable, hf, hg]
  refine ⟨hens, ?_, ?_, ?_⟩
  · intro ctx u now hu
    simp [archiveFormula, requireUser, hu, hens u.id]
  · intro i ctx u now hu hv hfid
    subst hfid
    simp [createFormulaExample, hv, requireUser, hu, hens u.id, hg]
  · intro i ctx u now hu hv hfid hgi
    subst hfid
    refine ⟨.formulaRow (((db.formulas.map
        (fun x => if x.id == i.id then applyFormulaPatch i now x else x)).filter
      (fun x => x.id == i.id)).head?), ?_⟩
    simp [updateFormula, hv, requireUser, hu, hens u.id, destinationCheck, hgi, hg]

/-- C8 witness: any user ("anyone") can edit and archive the ungrouped
formula of the move scenario. -/
theorem C8_ungrouped_editable_by_all_witness :
    ensureFormulaIsEditable dbMove 1 "anyone" = .ok freeFormula
  ∧ (archiveFormula ⟨1⟩ ⟨some ⟨"anyone"⟩⟩ 6 dbMove).1 = .ok ⟨true, none⟩ :=
  ⟨(C8_ungrouped_editable_by_all dbMove 1 freeFormula (by decide) rfl).1 "anyone",
    (C8_ungrouped_editable_by_all dbMove 1 freeFormula (by decide) rfl).2.1
      ⟨some ⟨"anyone"⟩⟩ ⟨"anyone"⟩ 6 rfl⟩

/-! ## C9: listFormulaExamples never fails NotFound -/

/-- C9: for an authenticated caller, listFormulaExamples returns success
with exactly the examples whose formulaId matches (possibly the empty list
— no formula-existence check is made) and total equal to their count, and
for any caller the action never produces a NotFound error. -/
theorem C9_list_examples (input : ListExamplesInput) (ctx : Ctx) (db : DB)
    (u : User) (hu : ctx.user = some u) :
    listFormulaExamples input ctx db
      = (.ok ⟨true, some (.exampleList
          (db.formulaExamples.filter (fun e => e.formulaId == input.formulaId))
          (db.formulaExamples.filter (fun e => e.formulaId == input.formulaId)).length)⟩, db)
  ∧ (∀ (ctx2 : Ctx) (m : String),
      (listFormulaExamples input ctx2 db).1 ≠ .error ⟨.notFound, m⟩) := by
  constructor
  · simp [listFormulaExamples, requireUser, hu]
  · intro ctx2 m
    cases hc : ctx2.user with
    | none => simp [listFormulaExamples, requireUser, hc, unauthorizedErr]
    | some u2 => simp [listFormulaExamples, requireUser, hc]

/-- An example row attached to formula 5. -/
def exRow1 : FormulaExampleRow :=
  { id := 1, formulaId := 5, problem := "p", solution := "s", createdAt := 0 }

/-- An example row attached to formula 6. -/
def exRow2 : FormulaExampleRow :=
  { id := 2, formulaId := 6, problem := "q", solution := "t", createdAt := 0 }

/-- Store with two examples and no formulas at all. -/
def dbEx : DB := { formulaExamples := [exRow1, exRow2] }

/-- C9 witness: listing examples of formula 5 — which does not even exist as
a formula — returns the single matching example, not NotFound. -/
theorem C9_list_examples_witness :
    listFormulaExamples ⟨5⟩ ⟨some ⟨"u"⟩⟩ dbEx
      = (.ok ⟨true, some (.exampleList [exRow1] 1)⟩, dbEx) := by
  have h := (C9_list_examples ⟨5⟩ ⟨some ⟨"u"⟩⟩ dbEx ⟨"u"⟩ rfl).1
  rw [h]
  decide

/-! ## C10: listUserFormulaStates is scoped to the caller -/

/-- C10: listUserFormulaStates returns exactly the caller's own rows —
filtered to favorites when favoritesOnly — with total equal to their count:
every returned row belongs to the caller (and is a favorite when
favoritesOnly), and every stored row of the caller passing the favorites
restriction is returned. -/
theorem C10_list_states_scoped (input : Option ListStatesInput) (ctx : Ctx)
    (db : DB) (u : User) (hu : ctx.user = some u) :
    listUserFormulaStates input ctx db
      = (.ok ⟨true, some (.stateList
          (db.userFormulaState.filter (fun s =>
            s.userId == u.id
              && (!((input.map (fun i => i.favoritesOnly)).getD false) || s.isFavorite)))
          (db.userFormulaState.filter (fun s =>
            s.userId == u.id
              && (!((input.map (fun i => i.favoritesOnly)).getD false) || s.isFavorite))).length)⟩, db)
  ∧ (∀ s ∈ db.userFormulaState.filter (fun s =>
        s.userId == u.id
          && (!((input.map (fun i => i.favoritesOnly)).getD false) || s.isFavorite)),
      s.userId = u.id
      ∧ ((input.map (fun i => i.favoritesOnly)).getD false = true → s.isFavorite = true))
  ∧ (∀ s ∈ db.userFormulaState, s.userId = u.id →
      ((input.map (fun i => i.favoritesOnly)).getD false = true → s.isFavorite = true) →
      s ∈ db.userFormulaState.filter (fun s =>
        s.userId == u.id
          && (!((input.map (fun i => i.favoritesOnly)).getD false) || s.isFavorite))) := by
  refine ⟨?_, ?_, ?_⟩
  · simp [listUserFormulaStates, requireUser, hu]
  · intro s hs
    rw [List.mem_filter] at hs
    obtain ⟨-, hp⟩ := hs
    simp only [Bool.and_eq_true, beq_iff_eq, Bool.or_eq_true, Bool.not_eq_true'] at hp
    obtain ⟨h1, h2⟩ := hp
    refine ⟨h1, ?_⟩
    intro hfav
    rcases h2 with h2 | h2
    · rw [hfav] at h2
      cases h2
    · exact h2
  · intro s hs h1 h2
    rw [List.mem_filter]
    refine ⟨hs, ?_⟩
    simp only [Bool.and_eq_true, beq_iff_eq, Bool.or_eq_true, Bool.not_eq_true']
    refine ⟨h1, ?_⟩
    cases hfav : (input.map (fun i => i.favoritesOnly)).getD false with
    | false => exact Or.inl rfl
    | true => exact Or.inr (h2 hfav)

/-- "a"'s favorite row. -/
def st1 : UserFormulaStateRow :=
  { id := 1, userId := "a", formulaId := 1, isFavorite := true, createdAt := 0, updatedAt := 0 }

/-- "b"'s favorite row. -/
def st2 : UserFormulaStateRow :=
  { id := 2, userId := "b", formulaId := 1, isFavorite := true, createdAt := 0, updatedAt := 0 }

/-- "a"'s non-favorite row. -/
def st3 : UserFormulaStateRow :=
  { id := 3, userId := "a", formulaId := 2, isFavorite := false, createdAt := 0, updatedAt := 0 }

/-- Store with rows of two users. -/
def dbSt : DB := { userFormulaState := [st1, st2, st3] }

/-- C10 witness: "a" listing favorites gets exactly their own favorite row —
not "b"'s and not the non-favorite. -/
theorem C10_list_states_scoped_witness :
    listUserFormulaStates (some ⟨true⟩) ⟨some ⟨"a"⟩⟩ dbSt
      = (.ok ⟨true, some (.stateList [st1] 1)⟩, dbSt) := by
  have h := (C10_list_states_scoped (some ⟨true⟩) ⟨some ⟨"a"⟩⟩ dbSt ⟨"a"⟩ rfl).1
  rw [h]
  decide

/-! ## C6: the success envelope -/

/-- createFormulaGroup succeeds only with `success: true` and a data object. -/
theorem okData_createFormulaGroup {i : CreateGroupInput} {ctx : Ctx}
    {now : Nat} {db : DB} {out : ActionOutput}
    (h : (createFormulaGroup i ctx now db).1 = .ok out) :
    out.success = true ∧ out.data.isSome = true := by
  unfold createFormulaGroup at h
  repeat' split at h
  all_goals solve
    | (exfalso; revert h; simp)
    | (dsimp only at h; injection h with h2; subst h2; exact ⟨rfl, rfl⟩)

/-- updateFormulaGroup succeeds only with `success: true` and a data object. -/
theorem okData_updateFormulaGroup {i : UpdateGroupInput} {ctx : Ctx}
    {now : Nat} {db : DB} {out : ActionOutput}
    (h : (updateFormulaGroup i ctx now db).1 = .ok out) :
    out.success = true ∧ out.data.isSome = true := by
  unfold updateFormulaGroup at h
  repeat' split at h
  all_goals solve
    | (exfalso; revert h; simp)
    | (dsimp only at h; injection h with h2; subst h2; exact ⟨rfl, rfl⟩)

/-- listMyFormulaGroups succeeds only with `success: true` and a data object. -/
theorem okData_listMyFormulaGroups {i : Option ListGroupsInput} {ctx : Ctx}
    {db : DB} {out : ActionOutput}
    (h : (listMyFormulaGroups i ctx db).1 = .ok out) :
    out.success = true ∧ out.data.isSome = true := by
  unfold listMyFormulaGroups at h
  repeat' split at h
  all_goals solve
    | (exfalso; revert h; simp)
    | (dsimp only at h; injection h with h2; subst h2; exact ⟨rfl, rfl⟩)

/-- createFormula succeeds only with `success: true` and a data object. -/
theorem okData_createFormula {i : CreateFormulaInput} {ctx : Ctx}
    {now : Nat} {db : DB} {out : ActionOutput}
    (h : (createFormula i ctx now db).1 = .ok out) :
    out.success = true ∧ out.data.isSome = true := by
  unfold createFormula at h
  repeat' split at h
  all_goals solve
    | (exfalso; revert h; simp)
    | (dsimp only at h; injection h with h2; subst h2; exact ⟨rfl, rfl⟩)

/-- updateFormula succeeds only with `success: true` and a data object. -/
theorem okData_updateFormula {i : UpdateFormulaInput} {ctx : Ctx}
    {now : Nat} {db : DB} {out : ActionOutput}
    (h : (updateFormula i ctx now db).1 = .ok out) :
    out.success = true ∧ out.data.isSome = true := by
  unfold updateFormula at h
  repeat' split at h
  all_goals solve
    | (exfalso; revert h; simp)
    | (dsimp only at h; injection h with h2; subst h2; exact ⟨rfl, rfl⟩)

/-- archiveFormula succeeds only with `{ success: true }` and no data. -/
theorem okData_archiveFormula {i : ArchiveFormulaInput} {ctx : Ctx}
    {now : Nat} {db : DB} {out : ActionOutput}
    (h : (archiveFormula i ctx now db).1 = .ok out) :
    out = ⟨true, none⟩ := by
  unfold archiveFormula at h
  repeat' split at h
  all_goals solve
    | (exfalso; revert h; simp)
    | (dsimp only at h; injection h with h2; subst h2; rfl)

/-- listFormulas succeeds only with `success: true` and a data object. -/
theorem okData_listFormulas {i : Option ListFormulasInput} {ctx : Ctx}
    {db : DB} {out : ActionOutput}
    (h : (listFormulas i ctx db).1 = .ok out) :
    out.success = true ∧ out.data.isSome = true := by
  unfold listFormulas at h
  repeat' split at h
  all_goals solve
    | (exfalso; revert h; simp)
    | (dsimp only at h; injection h with h2; subst h2; exact ⟨rfl, rfl⟩)

/-- createFormulaExample succeeds only with `success: true` and a data
object. -/
theorem okData_createFormulaExample {i : CreateExampleInput} {ctx : Ctx}
    {now : Nat} {db : DB} {out : ActionOutput}
    (h : (createFormulaExample i ctx now db).1 = .ok out) :
    out.success = true ∧ out.data.isSome = true := by
  unfold createFormulaExample at h
  repeat' split at h
  all_goals solve
    | (exfalso; revert h; simp)
    | (dsimp only at h; injection h with h2; subst h2; exact ⟨rfl, rfl⟩)

/-- listFormulaExamples succeeds only with `success: true` and a data
object. -/
theorem okData_listFormulaExamples {i : ListExamplesInput} {ctx : Ctx}
    {db : DB} {out : ActionOutput}
    (h : (listFormulaExamples i ctx db).1 = .ok out) :
    out.success = true ∧ out.data.isSome = true := by
  unfold listFormulaExamples at h
  repeat' split at h
  all_goals solve
    | (exfalso; revert h; simp)
    | (dsimp only at h; injection h with h2; subst h2; exact ⟨rfl, rfl⟩)

/-- upsertUserFormulaState succeeds only with `success: true` and a data
object. -/
theorem okData_upsertUserFormulaState {i : UpsertStateInput} {ctx : Ctx}
    {now : Nat} {db : DB} {out : ActionOutput}
    (h : (upsertUserFormulaState i ctx now db).1 = .ok out) :
    out.success = true ∧ out.data.isSome = true := by
  unfold upsertUserFormulaState at h
  repeat' split at h
  all_goals solve
    | (exfalso; revert h; simp)
    | (dsimp only at h; injection h with h2; subst h2; exact ⟨rfl, rfl⟩)

/-- listUserFormulaStates succeeds only with `success: true` and a data
object. -/
theorem okData_listUserFormulaStates {i : Option ListStatesInput} {ctx : Ctx}
    {db : DB} {out : ActionOutput}
    (h : (listUserFormulaStates i ctx db).1 = .ok out) :
    out.success = true ∧ out.data.isSome = true := by
  unfold listUserFormulaStates at h
  repeat' split at h
  all_goals solve
    | (exfalso; revert h; simp)
    | (dsimp only at h; injection h with h2; subst h2; exact ⟨rfl, rfl⟩)

/-- An active ungrouped formula to archive. -/
def dbArch : DB :=
  { formulas := [{ id := 1, name := "F", expression := "e", createdAt := 0, updatedAt := 0 }] }

/-- C6 counterexample: the claim says every action returns
`{ success: true, data: {...} }` on success. archiveFormula succeeds here
yet its result `{ success: true }` carries no data object (the source
returns `{ success: true }` with no data key). -/
theorem C6_counterexample :
    (serverDispatch (.archiveFormula ⟨1⟩) ⟨some ⟨"u"⟩⟩ 5 dbArch).1
      = .ok { success := true, data := none }
  ∧ ({ success := true, data := none } : ActionOutput).data = none := by
  exact ⟨by decide, rfl⟩

/-- C6 (amended): every action of the `server` object except archiveFormula
returns `{ success: true, data: {...} }` on success; archiveFormula returns
`{ success: true }` with no data object. -/
theorem C6_success_envelope (c : ServerCall) (ctx : Ctx) (now : Nat) (db : DB)
    (out : ActionOutput) (h : (serverDispatch c ctx now db).1 = .ok out) :
    out.success = true
  ∧ (c.isArchive = false → out.data.isSome = true)
  ∧ (c.isArchive = true → out.data = none) := by
  cases c with
  | createFormulaGroup i =>
    obtain ⟨h1, h2⟩ := okData_createFormulaGroup h
    exact ⟨h1, fun _ => h2, by intro hx; cases hx⟩
  | updateFormulaGroup i =>
    obtain ⟨h1, h2⟩ := okData_updateFormulaGroup h
    exact ⟨h1, fun _ => h2, by intro hx; cases hx⟩
  | listMyFormulaGroups i =>
    obtain ⟨h1, h2⟩ := okData_listMyFormulaGroups h
    exact ⟨h1, fun _ => h2, by intro hx; cases hx⟩
  | createFormula i =>
    obtain ⟨h1, h2⟩ := okData_createFormula h
    exact ⟨h1, fun _ => h2, by intro hx; cases hx⟩
  | updateFormula i =>
    obtain ⟨h1, h2⟩ := okData_updateFormula h
    exact ⟨h1, fun _ => h2, by intro hx; cases hx⟩
  | archiveFormula i =>
    have h1 := okData_archiveFormula h
    subst h1
    refine ⟨rfl, ?_, ?_⟩
    · intro hx
      cases hx
    · intro hx
      rfl
  | listFormulas i =>
    obtain ⟨h1, h2⟩ := okData_listFormulas h
    exact ⟨h1, fun _ => h2, by intro hx; cases hx⟩
  | createFormulaExample i =>
    obtain ⟨h1, h2⟩ := okData_createFormulaExample h
    exact ⟨h1, fun _ => h2, by intro hx; cases hx⟩
  | listFormulaExamples i =>
    obtain ⟨h1, h2⟩ := okData_listFormulaExamples h
    exact ⟨h1, fun _ => h2, by intro hx; cases hx⟩
  | upsertUserFormulaState i =>
    obtain ⟨h1, h2⟩ := okData_upsertUserFormulaState h
    exact ⟨h1, fun _ => h2, by intro hx; cases hx⟩
  | listUserFormulaStates i =>
    obtain ⟨h1, h2⟩ := okData_listUserFormulaStates h
    exact ⟨h1, fun _ => h2, by intro hx; cases hx⟩

/-- C6 witness: a successful non-archive call (listing examples on an empty
store) carries a data object. -/
theorem C6_success_envelope_witness :
    (serverDispatch (.listFormulaExamples ⟨1⟩) ⟨some ⟨"u"⟩⟩ 0 {}).1
      = .ok ⟨true, some (.exampleList [] 0)⟩
  ∧ (⟨true, some (.exampleList [] 0)⟩ : ActionOutput).data.isSome = true :=
  ⟨by decide,
    (C6_success_envelope (.listFormulaExamples ⟨1⟩) ⟨some ⟨"u"⟩⟩ 0 {}
      ⟨true, some (.exampleList [] 0)⟩ (by decide)).2.1 rfl⟩

end FormulaFinder
